import Mathlib

/-!
Verification of the coordinator swap quote consumer
(`src/packages/asset-swapper/src/quote_consumers/coordinator_swap_quote_consumer.ts`).

The file shallowly embeds the approval-aggregation protocol of
`CoordinatorSwapQuoteConsumer`:
* `formatRawResponse` — normalisation of a coordinator server approval payload,
  with JavaScript `[].concat(Array(n).fill(x))` semantics made explicit;
* `getCoordinatorApprovals` — the body of `_getCoordinatorApprovalsAsync`:
  filtering coordinator orders, fanning out one request per server endpoint,
  classifying responses, and either concatenating approvals or throwing a
  structured `CoordinatorServerError`;
* `getCoordinatorZeroExTransaction` — the body of
  `_getCoordinatorZeroExTransactionAsync` (the revision that probes the taker
  address for contract code);
* `getSmartContractParams` — the body of `getSmartContractParamsOrThrowAsync`.

External collaborators (`_mapServerEndpointsToOrdersAsync`,
`_executeServerRequestAsync`, the EC signer, the order optimizer) are not in
the repository slice; they enter as explicit parameters, constrained only by
hypotheses modelled from the specification where a claim needs them.
-/

namespace Coordinator

/-- A signed 0x order, reduced to the fields the quote consumer reads:
`senderAddress` (the designated approving-authority address) and `signature`.
`oid` stands in for the remaining immutable payload so that distinct orders
with equal sender/signature stay distinguishable. -/
structure SignedOrder where
  oid : Nat
  senderAddress : String
  signature : String
deriving DecidableEq, Repr

/-- A JavaScript value as it appears in the `expirationTimeSeconds` slot of a
raw coordinator approval: either a single (scalar) timestamp or an array of
timestamps.  Timestamps are `Nat` (BigNumber values). -/
inductive JSVal where
  | scalar : Nat → JSVal
  | arr : List Nat → JSVal
deriving DecidableEq, Repr

/-- `CoordinatorServerApprovalRawResponse`: the raw body of a successful
approval response — a list of signatures plus an `expirationTimeSeconds`
value (typed as a single BigNumber, but carried here as a `JSVal` so the
behaviour of the normalisation on array-shaped payloads is also captured). -/
structure CoordinatorServerApprovalRawResponse where
  signatures : List String
  expirationTimeSeconds : JSVal
deriving DecidableEq, Repr

/-- `CoordinatorServerApprovalResponse`: the normalised approval payload. -/
structure CoordinatorServerApprovalResponse where
  signatures : List String
  expirationTimeSeconds : List JSVal
deriving DecidableEq, Repr

/-- `CoordinatorServerResponse`: one coordinator server's reply, as consumed
by `_getCoordinatorApprovalsAsync`: an error discriminant, the raw approval
body (read only when `isError = false`), and the operator endpoint the
response is attributed to. -/
structure CoordinatorServerResponse where
  isError : Bool
  body : CoordinatorServerApprovalRawResponse
  coordinatorOperator : String
deriving DecidableEq, Repr

/-- The `formatRawResponse` helper inside `_getCoordinatorApprovalsAsync`.
JavaScript semantics of the two expressions:
`([] as string[]).concat(rawResponse.signatures)` with an array argument
appends that array's elements, i.e. returns the signature list unchanged;
`([] as BigNumber[]).concat(Array(n).fill(rawResponse.expirationTimeSeconds))`
builds the length-`n` array whose every element is the (unexamined)
`expirationTimeSeconds` value and appends its elements, i.e. yields
`n` copies of that value — whether it is a scalar or itself an array. -/
def formatRawResponse (rawResponse : CoordinatorServerApprovalRawResponse) :
    CoordinatorServerApprovalResponse :=
  { signatures := ([] : List String) ++ rawResponse.signatures
    expirationTimeSeconds :=
      ([] : List JSVal) ++
        List.replicate rawResponse.signatures.length rawResponse.expirationTimeSeconds }

/-- `CoordinatorServerErrorMsg.FillFailed`, the only message constructed in
this code path. -/
inductive CoordinatorServerErrorMsg where
  | FillFailed
deriving DecidableEq, Repr

/-- One element of the `errorsWithOrders` list: an error response spread
together with the orders of the endpoint it came from. -/
structure ErrorWithOrders where
  response : CoordinatorServerResponse
  orders : List SignedOrder
deriving DecidableEq, Repr

/-- A cancellation notice (`CoordinatorServerCancellationResponse`); no field
is ever read in this code path, which only ever constructs the empty list. -/
structure CoordinatorServerCancellationResponse where
  orderHash : String
deriving DecidableEq, Repr

/-- The structured `CoordinatorServerError` thrown on the any-refused path:
message, approved orders, cancellations, and the refusals with their orders. -/
structure CoordinatorServerError where
  message : CoordinatorServerErrorMsg
  approvedOrders : List SignedOrder
  cancellations : List CoordinatorServerCancellationResponse
  errors : List ErrorWithOrders
deriving DecidableEq, Repr

/-- The success payload of `_getCoordinatorApprovalsAsync` (the pass-through
`signedZeroExTransaction` field is omitted: it is returned unchanged). -/
structure AggregateSuccess where
  coordinatorApprovalSignatures : List String
  coordinatorExpirationTimes : List JSVal
deriving DecidableEq, Repr

/-- The filter predicate `o => o.senderAddress === this._contractWrappers.coordinator.address`
selecting the orders that require coordinator approval: exact (case-sensitive)
string equality of the sender address with the coordinator address. -/
def requiresCoordinatorApproval (coordinatorAddress : String) (o : SignedOrder) : Bool :=
  o.senderAddress = coordinatorAddress

/-- The endpoint-to-orders mapping produced by the external
`_mapServerEndpointsToOrdersAsync`, embedded as an association list so that
`Object.keys` iteration order is the list order. -/
abbrev EndpointMap := List (String × List SignedOrder)

/-- JavaScript object access `serverEndpointsToOrders[endpoint]`: the group
stored under the first matching key (well-defined on the keys actually
present; keys of a JS object are distinct by construction). -/
def lookupOrders (m : EndpointMap) (endpoint : String) : List SignedOrder :=
  match m.find? (fun p => p.1 = endpoint) with
  | some p => p.2
  | none => []

/-- Modelled from the spec: contract of the external
`_mapServerEndpointsToOrdersAsync` (not in the repository slice).  Per §3
AuthorityGroup and §6 registry lookup: keys are unique (JS object keys),
every listed endpoint has a non-empty order group (an endpoint appears
because some order resolved to it), and the groups together contain exactly
the coordinator orders (a partition, stated via occurrence counts). -/
structure IsEndpointMap (m : EndpointMap) (coordinatorOrders : List SignedOrder) : Prop where
  keysNodup : (m.map Prod.fst).Nodup
  groupsNonempty : ∀ p ∈ m, p.2 ≠ []
  unionCounts : ∀ o : SignedOrder,
    ((m.map Prod.snd).flatten).count o = coordinatorOrders.count o

/-- The list of endpoints `Object.keys(serverEndpointsToOrders)` iterated by
the request loop: one `_executeServerRequestAsync` call is issued per element,
in list order. -/
def requestedEndpoints (m : EndpointMap) : List String :=
  m.map Prod.fst

/-- The body of `_getCoordinatorApprovalsAsync`.  `coordinatorAddress` is
`this._contractWrappers.coordinator.address`; `serverEndpointsToOrders` is the
result of the external `_mapServerEndpointsToOrdersAsync`; `response` gives
the `CoordinatorServerResponse` obtained from `_executeServerRequestAsync`
for each endpoint (network I/O made explicit).  The `throw` of the structured
error is embedded as `Except.error`.

JavaScript notes mirrored below: the loop pushes each response into exactly
one of `errorResponses` / `approvalResponses` in iteration order, which is
`filter` on the mapped response list; `flatten(approvedOrdersNested.concat(notCoordinatorOrders))`
appends the individual non-coordinator orders after the flattened groups,
i.e. equals `approvedOrdersNested.flatten ++ notCoordinatorOrders`. -/
def getCoordinatorApprovals (coordinatorAddress : String)
    (signedOrders : List SignedOrder)
    (serverEndpointsToOrders : EndpointMap)
    (response : String → CoordinatorServerResponse) :
    Except CoordinatorServerError AggregateSuccess :=
  let responses := (requestedEndpoints serverEndpointsToOrders).map response
  let errorResponses := responses.filter (fun r => r.isError)
  let approvalResponses := responses.filter (fun r => !r.isError)
  if errorResponses.length = 0 then
    let allApprovals := approvalResponses.map (fun resp => formatRawResponse resp.body)
    let allSignatures := (allApprovals.map (fun a => a.signatures)).flatten
    let allExpirationTimes := (allApprovals.map (fun a => a.expirationTimeSeconds)).flatten
    Except.ok
      { coordinatorApprovalSignatures := allSignatures
        coordinatorExpirationTimes := allExpirationTimes }
  else
    let notCoordinatorOrders :=
      signedOrders.filter (fun o => !requiresCoordinatorApproval coordinatorAddress o)
    let approvedOrdersNested := approvalResponses.map
      (fun resp => lookupOrders serverEndpointsToOrders resp.coordinatorOperator)
    let approvedOrders := approvedOrdersNested.flatten ++ notCoordinatorOrders
    let errorsWithOrders := errorResponses.map
      (fun resp =>
        { response := resp
          orders := lookupOrders serverEndpointsToOrders resp.coordinatorOperator
          : ErrorWithOrders })
    Except.error
      { message := CoordinatorServerErrorMsg.FillFailed
        approvedOrders := approvedOrders
        cancellations := []
        errors := errorsWithOrders }

/-- An unsigned 0x transaction as assembled by
`_getCoordinatorZeroExTransactionAsync`: random salt, the taker as signer,
the ABI-encoded market operation, and the verifying exchange address. -/
structure ZeroExTransaction where
  salt : Nat
  signerAddress : String
  data : String
  verifyingContractAddress : String
deriving DecidableEq, Repr

/-- A signed 0x transaction: the transaction spread together with its
signature (`{ ...transaction, signature }`). -/
structure SignedZeroExTransaction where
  salt : Nat
  signerAddress : String
  data : String
  verifyingContractAddress : String
  signature : String
deriving DecidableEq, Repr

/-- `signatureUtils.convertToSignatureWithType('0x00', SignatureType.Wallet)`:
the fixed Wallet-type marker signature — the `0x00` payload with the
`SignatureType.Wallet` byte (`0x04`) appended.  The helper lives outside the
repository slice; the concrete constant is fixed, which is all the claims
use. -/
def walletMarkerSignature : String := "0x0004"

/-- The signing tail of `_getCoordinatorZeroExTransactionAsync` in the
revision that probes the taker address for contract code (lines 204-233).
`contractCode` is the result of `web3Wrapper.getContractCodeAsync(takerAddress)`
and `ecSign` the external `signatureUtils.ecSignTransactionAsync` signer
(network I/O made explicit).  The returned `Bool` records whether the
interactive EC signing call was made. -/
def getCoordinatorZeroExTransaction (contractCode : String)
    (transaction : ZeroExTransaction)
    (ecSign : ZeroExTransaction → String) :
    SignedZeroExTransaction × Bool :=
  if contractCode = "0x" ∨ contractCode = "0x00" then
    ({ salt := transaction.salt
       signerAddress := transaction.signerAddress
       data := transaction.data
       verifyingContractAddress := transaction.verifyingContractAddress
       signature := ecSign transaction }, true)
  else
    ({ salt := transaction.salt
       signerAddress := transaction.signerAddress
       data := transaction.data
       verifyingContractAddress := transaction.verifyingContractAddress
       signature := walletMarkerSignature }, false)

/-- `MarketOperation`: the two market operation kinds. -/
inductive MarketOperation where
  | Buy
  | Sell
deriving DecidableEq, Repr

/-- The fields of a `SwapQuote` read by `getSmartContractParamsOrThrowAsync`. -/
structure SwapQuote where
  orders : List SignedOrder
  type : MarketOperation
  makerAssetFillAmount : Nat
  takerAssetFillAmount : Nat
deriving DecidableEq, Repr

/-- `ExchangeSmartContractParams` as built by
`getSmartContractParamsOrThrowAsync`: the (optimized) orders, the signature
list, the fill amount of the selected branch, and the operation type. -/
structure ExchangeSmartContractParams where
  orders : List SignedOrder
  signatures : List String
  fillAmount : Nat
  type : MarketOperation
deriving DecidableEq, Repr

/-- The body of `getSmartContractParamsOrThrowAsync`.  `optimize` is the
external `swapQuoteConsumerUtils.optimizeOrdersForMarketExchangeOperation`
(not in the repository slice), passed as a parameter.  Returns the params
together with the selected `methodName`. -/
def getSmartContractParams
    (optimize : List SignedOrder → MarketOperation → List SignedOrder)
    (quote : SwapQuote) :
    ExchangeSmartContractParams × String :=
  let signatures := quote.orders.map (fun o => o.signature)
  let optimizedOrders := optimize quote.orders quote.type
  match quote.type with
  | MarketOperation.Buy =>
      ({ orders := optimizedOrders
         signatures := signatures
         fillAmount := quote.makerAssetFillAmount
         type := MarketOperation.Buy }, "marketBuyOrders")
  | MarketOperation.Sell =>
      ({ orders := optimizedOrders
         signatures := signatures
         fillAmount := quote.takerAssetFillAmount
         type := MarketOperation.Sell }, "marketSellOrders")

/-! ### Concrete fixtures used to instantiate the theorems -/

/-- Fixture: a coordinator order handled by endpoint `epX`. -/
def orderA : SignedOrder := { oid := 1, senderAddress := "0xc00", signature := "sA" }

/-- Fixture: a coordinator order handled by endpoint `epY`. -/
def orderB : SignedOrder := { oid := 2, senderAddress := "0xc00", signature := "sB" }

/-- Fixture: an order that requires no coordinator approval. -/
def orderC : SignedOrder := { oid := 3, senderAddress := "0x000", signature := "sC" }

/-- Fixture: the endpoint map sending `orderA` to `epX` and `orderB` to `epY`. -/
def mapXY : EndpointMap := [("epX", [orderA]), ("epY", [orderB])]

/-- Fixture: responses where `epX` approves with one signature and `epY`
refuses. -/
def respXokYerr : String → CoordinatorServerResponse := fun e =>
  if e = "epX" then
    { isError := false
      body := { signatures := ["sigX"], expirationTimeSeconds := JSVal.scalar 100 }
      coordinatorOperator := "epX" }
  else
    { isError := true
      body := { signatures := [], expirationTimeSeconds := JSVal.scalar 0 }
      coordinatorOperator := "epY" }

/-- Fixture: the structured error produced by aggregating the batch
`[orderA, orderB, orderC]` against `mapXY` under `respXokYerr`. -/
def errXY : CoordinatorServerError :=
  { message := CoordinatorServerErrorMsg.FillFailed
    approvedOrders := [orderA, orderC]
    cancellations := []
    errors :=
      [{ response :=
           { isError := true
             body := { signatures := [], expirationTimeSeconds := JSVal.scalar 0 }
             coordinatorOperator := "epY" }
         orders := [orderB] }] }

/-! ### Shared lemmas about the aggregation function -/

/-- Unfolding of the all-approved branch: when no response is an error, the
aggregation succeeds with the concatenated normalised approvals. -/
lemma getCoordinatorApprovals_ok_eq (coordinatorAddress : String)
    (signedOrders : List SignedOrder) (m : EndpointMap)
    (response : String → CoordinatorServerResponse)
    (hz : (((requestedEndpoints m).map response).filter (fun r => r.isError)) = []) :
    getCoordinatorApprovals coordinatorAddress signedOrders m response =
      Except.ok
        { coordinatorApprovalSignatures :=
            (((((requestedEndpoints m).map response).filter (fun r => !r.isError)).map
              (fun resp => formatRawResponse resp.body)).map
                (fun a => a.signatures)).flatten
          coordinatorExpirationTimes :=
            (((((requestedEndpoints m).map response).filter (fun r => !r.isError)).map
              (fun resp => formatRawResponse resp.body)).map
                (fun a => a.expirationTimeSeconds)).flatten } := by
  simp only [getCoordinatorApprovals, hz, List.length_nil, if_pos]

/-- Unfolding of the any-refused branch: when some response is an error, the
aggregation produces the structured `CoordinatorServerError`. -/
lemma getCoordinatorApprovals_error_eq (coordinatorAddress : String)
    (signedOrders : List SignedOrder) (m : EndpointMap)
    (response : String → CoordinatorServerResponse)
    (hne : (((requestedEndpoints m).map response).filter (fun r => r.isError)) ≠ []) :
    getCoordinatorApprovals coordinatorAddress signedOrders m response =
      Except.error
        { message := CoordinatorServerErrorMsg.FillFailed
          approvedOrders :=
            (((((requestedEndpoints m).map response).filter (fun r => !r.isError)).map
              (fun resp => lookupOrders m resp.coordinatorOperator)).flatten) ++
              signedOrders.filter
                (fun o => !requiresCoordinatorApproval coordinatorAddress o)
          cancellations := []
          errors :=
            (((requestedEndpoints m).map response).filter (fun r => r.isError)).map
              (fun resp =>
                { response := resp
                  orders := lookupOrders m resp.coordinatorOperator }) } := by
  have hlen : (((requestedEndpoints m).map response).filter
      (fun r => r.isError)).length ≠ 0 := by
    simpa [List.length_eq_zero] using hne
  simp only [getCoordinatorApprovals, if_neg hlen]

/-- If the aggregation fails then some response was an error. -/
lemma error_response_of_getCoordinatorApprovals_error (coordinatorAddress : String)
    (signedOrders : List SignedOrder) (m : EndpointMap)
    (response : String → CoordinatorServerResponse) (err : CoordinatorServerError)
    (herr : getCoordinatorApprovals coordinatorAddress signedOrders m response =
      Except.error err) :
    (((requestedEndpoints m).map response).filter (fun r => r.isError)) ≠ [] := by
  intro hz
  rw [getCoordinatorApprovals_ok_eq coordinatorAddress signedOrders m response hz] at herr
  exact Except.noConfusion herr

/-- Looking up each key of an association list with distinct keys recovers the
stored groups, in order. -/
lemma map_lookupOrders_keys (m : EndpointMap) (h : (m.map Prod.fst).Nodup) :
    (m.map Prod.fst).map (lookupOrders m) = m.map Prod.snd := by
  induction m with
  | nil => rfl
  | cons p m ih =>
      simp only [List.map_cons, List.nodup_cons] at h ⊢
      have h1 : lookupOrders (p :: m) p.1 = p.2 := by simp [lookupOrders]
      have hrest : ∀ e ∈ m.map Prod.fst, lookupOrders (p :: m) e = lookupOrders m e := by
        intro e he
        have hne : ¬p.1 = e := fun hEq => h.1 (hEq ▸ he)
        simp [lookupOrders, List.find?_cons, hne]
      rw [h1, List.map_congr_left hrest, ih h.2]

/-- Splitting a sum of mapped values along a Boolean filter of the index list. -/
lemma sum_map_filter_split {β : Type} (rs : List β) (p : β → Bool) (f : β → Nat) :
    ((rs.filter p).map f).sum + ((rs.filter (fun x => !p x)).map f).sum =
      (rs.map f).sum := by
  induction rs with
  | nil => rfl
  | cons a rs ih =>
      cases hp : p a <;>
        simp [List.filter_cons, hp, ← ih] <;> omega

/-- Occurrence counts split along a Boolean filter. -/
lemma count_filter_split {β : Type} [DecidableEq β] (l : List β) (p : β → Bool) (b : β) :
    (l.filter p).count b + (l.filter (fun x => !p x)).count b = l.count b := by
  have hperm := (List.filter_append_perm p l).count_eq b
  simpa [List.count_append] using hperm

/-- When responses are attributable to their endpoints, looking up the
operator group of each response selected by a predicate is looking up the
group of each endpoint selected by the corresponding predicate. -/
lemma groups_of_filtered_responses (m : EndpointMap)
    (response : String → CoordinatorServerResponse)
    (hOp : ∀ e ∈ requestedEndpoints m, (response e).coordinatorOperator = e)
    (p : CoordinatorServerResponse → Bool) :
    (((requestedEndpoints m).map response).filter p).map
        (fun resp => lookupOrders m resp.coordinatorOperator) =
      ((requestedEndpoints m).filter (fun e => p (response e))).map (lookupOrders m) := by
  rw [List.filter_map, List.map_map]
  refine List.map_congr_left ?_
  intro e he
  have he2 : e ∈ requestedEndpoints m := (List.mem_filter.mp he).1
  show lookupOrders m (response e).coordinatorOperator = lookupOrders m e
  rw [hOp e he2]

/-- Counting over the approving groups and the refusing groups together is
counting over all of the endpoint map's groups. -/
lemma count_groups_split (m : EndpointMap)
    (response : String → CoordinatorServerResponse) (o : SignedOrder) :
    ((((requestedEndpoints m).filter (fun e => !(response e).isError)).map
        (lookupOrders m)).flatten).count o +
      ((((requestedEndpoints m).filter (fun e => (response e).isError)).map
        (lookupOrders m)).flatten).count o =
      (((requestedEndpoints m).map (lookupOrders m)).flatten).count o := by
  rw [List.count_flatten, List.count_flatten, List.count_flatten, List.map_map,
    List.map_map, List.map_map]
  simp only [Function.comp_def]
  have hsplit := sum_map_filter_split (requestedEndpoints m)
    (fun e => (response e).isError) (fun e => (lookupOrders m e).count o)
  omega

/-! ### Claim theorems -/

/-- C5, counterexample.  The claim asserts that the requires-approval test is
case-normalized, so an order whose `senderAddress` differs from the
coordinator address only in letter case would be selected for approval.  In
the code the test is exact string equality: the order with sender `0xAB` is
not selected by coordinator address `0xab`, although the two addresses agree
after case folding. -/
theorem requiresApproval_not_caseNormalized :
    requiresCoordinatorApproval "0xab"
        { oid := 0, senderAddress := "0xAB", signature := "s" } = false ∧
      "0xAB".data.map Char.toLower = "0xab".data.map Char.toLower ∧
      "0xAB" ≠ "0xab" := by
  refine ⟨rfl, by decide, by decide⟩

/-- C5, amended.  An order is selected for third-party approval iff its
`senderAddress` is exactly (case-sensitively) equal, as a string, to the
coordinator address; no case normalisation is applied, neither in the
requires-approval filter nor in the complementary no-authority filter used on
the refused path. -/
theorem requiresApproval_iff_exact_address (coordinatorAddress : String) (o : SignedOrder) :
    (requiresCoordinatorApproval coordinatorAddress o = true ↔
        o.senderAddress = coordinatorAddress) ∧
      ((!requiresCoordinatorApproval coordinatorAddress o) = true ↔
        o.senderAddress ≠ coordinatorAddress) := by
  constructor <;> simp [requiresCoordinatorApproval]

/-- C7, counterexample.  The claim asserts that an array-shaped
`expirationTimeSeconds` ("one expiration per signature") is passed through so
that each signature is paired with exactly one expiration.  In the code,
`Array(n).fill(expirationTimeSeconds)` replicates the unexamined value, so
for two signatures and the per-signature list `[7, 9]` the produced list is
two copies of the whole array, not the array itself. -/
theorem formatRawResponse_list_not_passed_through :
    (formatRawResponse
        { signatures := ["s1", "s2"],
          expirationTimeSeconds := JSVal.arr [7, 9] }).expirationTimeSeconds ≠
        [JSVal.scalar 7, JSVal.scalar 9] ∧
      (formatRawResponse
        { signatures := ["s1", "s2"],
          expirationTimeSeconds := JSVal.arr [7, 9] }).expirationTimeSeconds =
        [JSVal.arr [7, 9], JSVal.arr [7, 9]] := by
  exact ⟨by decide, rfl⟩

/-- C7, amended.  Normalisation replicates the response's
`expirationTimeSeconds` value — whatever its shape — once per signature, so
the produced expiration list always has the same length as the signature
list (a shared scalar timestamp is thereby correctly paired with each
signature; an array-shaped value is not unpacked but replicated wholesale);
consequently the aggregated signature and expiration lists of every
successful aggregation have equal length. -/
theorem formatRawResponse_replicates (rawResponse : CoordinatorServerApprovalRawResponse)
    (coordinatorAddress : String) (signedOrders : List SignedOrder) (m : EndpointMap)
    (response : String → CoordinatorServerResponse) (s : AggregateSuccess)
    (hok : getCoordinatorApprovals coordinatorAddress signedOrders m response =
      Except.ok s) :
    (formatRawResponse rawResponse).signatures = rawResponse.signatures ∧
      (formatRawResponse rawResponse).expirationTimeSeconds =
        List.replicate rawResponse.signatures.length rawResponse.expirationTimeSeconds ∧
      (formatRawResponse rawResponse).expirationTimeSeconds.length =
        (formatRawResponse rawResponse).signatures.length ∧
      s.coordinatorApprovalSignatures.length = s.coordinatorExpirationTimes.length := by
  refine ⟨rfl, rfl, by simp [formatRawResponse], ?_⟩
  by_cases hz : (((requestedEndpoints m).map response).filter (fun r => r.isError)) = []
  · rw [getCoordinatorApprovals_ok_eq coordinatorAddress signedOrders m response hz] at hok
    cases hok
    simp only [List.length_flatten, List.map_map]
    congr 1
    refine List.map_congr_left ?_
    intro r _
    simp [formatRawResponse]
  · rw [getCoordinatorApprovals_error_eq coordinatorAddress signedOrders m response hz] at hok
    exact Except.noConfusion hok

/-- C7, witness: the amended theorem applied to a concrete response and a
concrete successful aggregation (empty endpoint map). -/
theorem formatRawResponse_replicates_witness :
    (formatRawResponse
        { signatures := ["s1", "s2"],
          expirationTimeSeconds := JSVal.scalar 7 }).signatures = ["s1", "s2"] ∧
      (formatRawResponse
        { signatures := ["s1", "s2"],
          expirationTimeSeconds := JSVal.scalar 7 }).expirationTimeSeconds =
        List.replicate 2 (JSVal.scalar 7) ∧
      (formatRawResponse
        { signatures := ["s1", "s2"],
          expirationTimeSeconds := JSVal.scalar 7 }).expirationTimeSeconds.length =
        (formatRawResponse
        { signatures := ["s1", "s2"],
          expirationTimeSeconds := JSVal.scalar 7 }).signatures.length ∧
      (AggregateSuccess.mk [] []).coordinatorApprovalSignatures.length =
        (AggregateSuccess.mk [] []).coordinatorExpirationTimes.length :=
  formatRawResponse_replicates
    { signatures := ["s1", "s2"], expirationTimeSeconds := JSVal.scalar 7 }
    "0xcoord" []
    []
    (fun _ =>
      { isError := false
        body := { signatures := [], expirationTimeSeconds := JSVal.scalar 0 }
        coordinatorOperator := "" })
    (AggregateSuccess.mk [] []) rfl

/-- C9.  The transaction builder of the contract-code-probing revision: when
executable code is present at the taker address (code neither `0x` nor
`0x00`), no interactive EC signing call is made — the result is independent
of the external signer — and the returned signed transaction carries the
fixed Wallet-type marker signature; when no code is present, the interactive
EC signature over the transaction is attached instead. -/
theorem coordinatorTransaction_signing_branch (contractCode : String)
    (transaction : ZeroExTransaction) (ecSign : ZeroExTransaction → String) :
    (contractCode ≠ "0x" ∧ contractCode ≠ "0x00" →
      getCoordinatorZeroExTransaction contractCode transaction ecSign =
        ({ salt := transaction.salt
           signerAddress := transaction.signerAddress
           data := transaction.data
           verifyingContractAddress := transaction.verifyingContractAddress
           signature := walletMarkerSignature }, false) ∧
      ∀ otherSign : ZeroExTransaction → String,
        getCoordinatorZeroExTransaction contractCode transaction ecSign =
          getCoordinatorZeroExTransaction contractCode transaction otherSign) ∧
    (contractCode = "0x" ∨ contractCode = "0x00" →
      getCoordinatorZeroExTransaction contractCode transaction ecSign =
        ({ salt := transaction.salt
           signerAddress := transaction.signerAddress
           data := transaction.data
           verifyingContractAddress := transaction.verifyingContractAddress
           signature := ecSign transaction }, true)) := by
  constructor
  · intro hcode
    have hcond : ¬(contractCode = "0x" ∨ contractCode = "0x00") := by
      rintro (h | h) <;> [exact hcode.1 h; exact hcode.2 h]
    constructor
    · simp [getCoordinatorZeroExTransaction, hcond]
    · intro otherSign
      simp [getCoordinatorZeroExTransaction, hcond]
  · intro hcode
    simp [getCoordinatorZeroExTransaction, hcode]

/-- C9, witness: a taker address with contract code `0xdeadbeef` gets the
marker signature without signing; a code-free taker (`0x`) gets the EC
signature. -/
theorem coordinatorTransaction_signing_branch_witness :
    (getCoordinatorZeroExTransaction "0xdeadbeef"
        { salt := 1, signerAddress := "0xtaker", data := "0xdata",
          verifyingContractAddress := "0xexchange" } (fun _ => "0xecsig") =
      ({ salt := 1, signerAddress := "0xtaker", data := "0xdata",
         verifyingContractAddress := "0xexchange",
         signature := walletMarkerSignature }, false)) ∧
    (getCoordinatorZeroExTransaction "0x"
        { salt := 1, signerAddress := "0xtaker", data := "0xdata",
          verifyingContractAddress := "0xexchange" } (fun _ => "0xecsig") =
      ({ salt := 1, signerAddress := "0xtaker", data := "0xdata",
         verifyingContractAddress := "0xexchange",
         signature := "0xecsig" }, true)) :=
  ⟨((coordinatorTransaction_signing_branch "0xdeadbeef"
      { salt := 1, signerAddress := "0xtaker", data := "0xdata",
        verifyingContractAddress := "0xexchange" } (fun _ => "0xecsig")).1
      (by refine ⟨?_, ?_⟩ <;> decide)).1,
    (coordinatorTransaction_signing_branch "0x"
      { salt := 1, signerAddress := "0xtaker", data := "0xdata",
        verifyingContractAddress := "0xexchange" } (fun _ => "0xecsig")).2
      (Or.inl rfl)⟩

/-- C10.  The params built by `getSmartContractParamsOrThrowAsync` carry the
signature list of the quote's original order list, position by position,
while `params.orders` is the optimizer's reordering of those orders; hence
`params.orders` and `params.signatures` are mutually aligned exactly when the
optimized order sequence has the same signature sequence as the original. -/
theorem smartContractParams_signature_alignment
    (optimize : List SignedOrder → MarketOperation → List SignedOrder)
    (quote : SwapQuote) :
    (getSmartContractParams optimize quote).1.signatures =
        quote.orders.map (fun o => o.signature) ∧
      (getSmartContractParams optimize quote).1.orders =
        optimize quote.orders quote.type ∧
      (((getSmartContractParams optimize quote).1.orders.map (fun o => o.signature) =
          (getSmartContractParams optimize quote).1.signatures) ↔
        (optimize quote.orders quote.type).map (fun o => o.signature) =
          quote.orders.map (fun o => o.signature)) := by
  obtain ⟨orders, ty, mfa, tfa⟩ := quote
  cases ty <;> simp [getSmartContractParams]

/-- C4.  If no order in the batch names the coordinator address as its
authority, then the endpoint map is empty, no request is issued, and the
aggregation succeeds with empty signature and expiration lists — for every
possible behaviour of the network (the `response` function is universally
quantified and never consulted). -/
theorem noAuthority_batch_succeeds_empty (coordinatorAddress : String)
    (signedOrders : List SignedOrder) (m : EndpointMap)
    (hmap : IsEndpointMap m
      (signedOrders.filter (requiresCoordinatorApproval coordinatorAddress)))
    (hnone : ∀ o ∈ signedOrders, o.senderAddress ≠ coordinatorAddress) :
    ∀ response : String → CoordinatorServerResponse,
      getCoordinatorApprovals coordinatorAddress signedOrders m response =
        Except.ok
          { coordinatorApprovalSignatures := []
            coordinatorExpirationTimes := [] } := by
  intro response
  have hfilter : signedOrders.filter (requiresCoordinatorApproval coordinatorAddress) = [] := by
    refine List.filter_eq_nil_iff.mpr ?_
    intro o ho
    simpa [requiresCoordinatorApproval] using hnone o ho
  have hflat : (m.map Prod.snd).flatten = [] := by
    refine List.eq_nil_iff_forall_not_mem.mpr ?_
    intro o ho
    have hc := hmap.unionCounts o
    rw [hfilter] at hc
    simp only [List.count_nil] at hc
    exact (List.count_eq_zero.mp hc) ho
  have hm : m = [] := by
    cases m with
    | nil => rfl
    | cons p m =>
        exfalso
        have hp : p.2 = [] := by
          have := List.flatten_eq_nil_iff.mp hflat p.2
          exact this (by simp)
        exact hmap.groupsNonempty p (by simp) hp
  subst hm
  rfl

/-- C4, witness: a one-order batch whose sender is not the coordinator, with
the empty endpoint map, succeeds with empty lists. -/
theorem noAuthority_batch_succeeds_empty_witness :
    getCoordinatorApprovals "0xc00"
        [{ oid := 3, senderAddress := "0x000", signature := "sC" }] []
        (fun _ =>
          { isError := true
            body := { signatures := [], expirationTimeSeconds := JSVal.scalar 0 }
            coordinatorOperator := "" }) =
      Except.ok
        { coordinatorApprovalSignatures := []
          coordinatorExpirationTimes := [] } :=
  noAuthority_batch_succeeds_empty "0xc00"
    [{ oid := 3, senderAddress := "0x000", signature := "sC" }] []
    { keysNodup := by simp
      groupsNonempty := by simp
      unionCounts := by intro o; rfl }
    (by intro o ho; simp at ho; subst ho; decide)
    (fun _ =>
      { isError := true
        body := { signatures := [], expirationTimeSeconds := JSVal.scalar 0 }
        coordinatorOperator := "" })

/-- C3.  If any queried endpoint responds with an error, the aggregation
fails with the structured `CoordinatorServerError` — never with the success
variant, and not a bare value: the error carries the approved-orders list,
the cancellations list, and the refusal list — and the cancellations list of
that error is always empty at this layer while its message is the fixed
`FillFailed` marker. -/
theorem anyRefused_structured_error (coordinatorAddress : String)
    (signedOrders : List SignedOrder) (m : EndpointMap)
    (response : String → CoordinatorServerResponse) (e : String)
    (he : e ∈ requestedEndpoints m) (hisErr : (response e).isError = true) :
    ∃ err : CoordinatorServerError,
      getCoordinatorApprovals coordinatorAddress signedOrders m response =
          Except.error err ∧
        err.message = CoordinatorServerErrorMsg.FillFailed ∧
        err.cancellations = [] := by
  have hne : (((requestedEndpoints m).map response).filter (fun r => r.isError)) ≠ [] := by
    have hmem : response e ∈ ((requestedEndpoints m).map response).filter
        (fun r => r.isError) :=
      List.mem_filter.mpr ⟨List.mem_map_of_mem response he, hisErr⟩
    exact List.ne_nil_of_mem hmem
  exact ⟨_, getCoordinatorApprovals_error_eq coordinatorAddress signedOrders m response hne,
    rfl, rfl⟩

/-- C3, witness: with endpoint `epY` refusing, the aggregation of a concrete
three-order batch fails with the structured error whose cancellations list is
empty. -/
theorem anyRefused_structured_error_witness :
    ∃ err : CoordinatorServerError,
      getCoordinatorApprovals "0xc00"
          [{ oid := 1, senderAddress := "0xc00", signature := "sA" },
           { oid := 2, senderAddress := "0xc00", signature := "sB" },
           { oid := 3, senderAddress := "0x000", signature := "sC" }]
          [("epX", [{ oid := 1, senderAddress := "0xc00", signature := "sA" }]),
           ("epY", [{ oid := 2, senderAddress := "0xc00", signature := "sB" }])]
          (fun e =>
            if e = "epX" then
              { isError := false
                body := { signatures := ["sigX"], expirationTimeSeconds := JSVal.scalar 100 }
                coordinatorOperator := "epX" }
            else
              { isError := true
                body := { signatures := [], expirationTimeSeconds := JSVal.scalar 0 }
                coordinatorOperator := "epY" }) =
          Except.error err ∧
        err.message = CoordinatorServerErrorMsg.FillFailed ∧
        err.cancellations = [] :=
  anyRefused_structured_error "0xc00"
    [{ oid := 1, senderAddress := "0xc00", signature := "sA" },
     { oid := 2, senderAddress := "0xc00", signature := "sB" },
     { oid := 3, senderAddress := "0x000", signature := "sC" }]
    [("epX", [{ oid := 1, senderAddress := "0xc00", signature := "sA" }]),
     ("epY", [{ oid := 2, senderAddress := "0xc00", signature := "sB" }])]
    (fun e =>
      if e = "epX" then
        { isError := false
          body := { signatures := ["sigX"], expirationTimeSeconds := JSVal.scalar 100 }
          coordinatorOperator := "epX" }
      else
        { isError := true
          body := { signatures := [], expirationTimeSeconds := JSVal.scalar 0 }
          coordinatorOperator := "epY" })
    "epY" (by simp [requestedEndpoints]) (by decide)

/-- C8.  The request loop iterates `Object.keys` of the endpoint map once:
every endpoint of the (spec-modelled) map — each of which has a non-empty
order group — receives exactly one request, and every issued request goes to
an endpoint of the map with a non-empty group: none is skipped, none is
queried twice. -/
theorem one_request_per_endpoint (m : EndpointMap)
    (coordinatorOrders : List SignedOrder) (hmap : IsEndpointMap m coordinatorOrders) :
    (∀ p ∈ m, (requestedEndpoints m).count p.1 = 1) ∧
      ∀ e ∈ requestedEndpoints m, ∃ p ∈ m, p.1 = e ∧ p.2 ≠ [] := by
  constructor
  · intro p hp
    exact List.count_eq_one_of_mem hmap.keysNodup (List.mem_map_of_mem Prod.fst hp)
  · intro e he
    obtain ⟨p, hp, hpe⟩ := List.mem_map.mp he
    exact ⟨p, hp, hpe, hmap.groupsNonempty p hp⟩

/-- C8, witness: the two-endpoint map issues exactly one request to each of
its endpoints, and each requested endpoint holds a non-empty group. -/
theorem one_request_per_endpoint_witness :
    (∀ p ∈ ([("epX", [{ oid := 1, senderAddress := "0xc00", signature := "sA" }]),
             ("epY", [{ oid := 2, senderAddress := "0xc00", signature := "sB" }])] :
            EndpointMap),
        (requestedEndpoints
          [("epX", [{ oid := 1, senderAddress := "0xc00", signature := "sA" }]),
           ("epY", [{ oid := 2, senderAddress := "0xc00", signature := "sB" }])]).count
          p.1 = 1) ∧
      ∀ e ∈ requestedEndpoints
          [("epX", [{ oid := 1, senderAddress := "0xc00", signature := "sA" }]),
           ("epY", [{ oid := 2, senderAddress := "0xc00", signature := "sB" }])],
        ∃ p ∈ ([("epX", [{ oid := 1, senderAddress := "0xc00", signature := "sA" }]),
                ("epY", [{ oid := 2, senderAddress := "0xc00", signature := "sB" }])] :
               EndpointMap),
          p.1 = e ∧ p.2 ≠ [] :=
  one_request_per_endpoint
    [("epX", [{ oid := 1, senderAddress := "0xc00", signature := "sA" }]),
     ("epY", [{ oid := 2, senderAddress := "0xc00", signature := "sB" }])]
    [{ oid := 1, senderAddress := "0xc00", signature := "sA" },
     { oid := 2, senderAddress := "0xc00", signature := "sB" }]
    { keysNodup := by decide
      groupsNonempty := by decide
      unionCounts := by intro o; rfl }

/-- C6.  When every queried endpoint approves, the aggregation succeeds, the
aggregated signature list is the order-preserving concatenation of each
endpoint's signatures in the iteration order of the endpoint map, and —
given the interface contract that an approval carries one signature per
order the endpoint was asked about — its length equals the number of orders
in the batch that required third-party approval. -/
theorem allApproved_signature_concatenation (coordinatorAddress : String)
    (signedOrders : List SignedOrder) (m : EndpointMap)
    (response : String → CoordinatorServerResponse)
    (hmap : IsEndpointMap m
      (signedOrders.filter (requiresCoordinatorApproval coordinatorAddress)))
    (happrove : ∀ e ∈ requestedEndpoints m, (response e).isError = false)
    (hlen : ∀ p ∈ m, ((response p.1).body.signatures).length = p.2.length) :
    ∃ s : AggregateSuccess,
      getCoordinatorApprovals coordinatorAddress signedOrders m response =
          Except.ok s ∧
        s.coordinatorApprovalSignatures =
          ((requestedEndpoints m).map (fun e => (response e).body.signatures)).flatten ∧
        s.coordinatorApprovalSignatures.length =
          (signedOrders.filter (requiresCoordinatorApproval coordinatorAddress)).length := by
  have hz : (((requestedEndpoints m).map response).filter (fun r => r.isError)) = [] := by
    refine List.filter_eq_nil_iff.mpr ?_
    intro r hr
    obtain ⟨e, he, rfl⟩ := List.mem_map.mp hr
    simp [happrove e he]
  have hself : (((requestedEndpoints m).map response).filter (fun r => !r.isError)) =
      (requestedEndpoints m).map response := by
    refine List.filter_eq_self.mpr ?_
    intro r hr
    obtain ⟨e, he, rfl⟩ := List.mem_map.mp hr
    simp [happrove e he]
  have hsigs :
      (((((requestedEndpoints m).map response).filter (fun r => !r.isError)).map
        (fun resp => formatRawResponse resp.body)).map (fun a => a.signatures)).flatten =
      ((requestedEndpoints m).map (fun e => (response e).body.signatures)).flatten := by
    rw [hself]
    simp only [List.map_map]
    rfl
  refine ⟨_, getCoordinatorApprovals_ok_eq coordinatorAddress signedOrders m response hz,
    hsigs, ?_⟩
  rw [hsigs]
  calc ((requestedEndpoints m).map (fun e => (response e).body.signatures)).flatten.length
      = (((requestedEndpoints m).map
          (fun e => (response e).body.signatures)).map List.length).sum :=
        List.length_flatten _
    _ = (m.map (fun p => ((response p.1).body.signatures).length)).sum := by
        simp only [requestedEndpoints, List.map_map]
        rfl
    _ = (m.map (fun p => p.2.length)).sum :=
        congrArg List.sum (List.map_congr_left hlen)
    _ = ((m.map Prod.snd).map List.length).sum := by
        simp only [List.map_map]
        rfl
    _ = ((m.map Prod.snd).flatten).length := (List.length_flatten _).symm
    _ = (signedOrders.filter (requiresCoordinatorApproval coordinatorAddress)).length :=
        (List.perm_iff_count.mpr hmap.unionCounts).length_eq

/-- C6, witness: two endpoints approving one order each yield the
concatenated signature list of length two, the number of coordinator
orders in the batch. -/
theorem allApproved_signature_concatenation_witness :
    ∃ s : AggregateSuccess,
      getCoordinatorApprovals "0xc00"
          [{ oid := 1, senderAddress := "0xc00", signature := "sA" },
           { oid := 2, senderAddress := "0xc00", signature := "sB" },
           { oid := 3, senderAddress := "0x000", signature := "sC" }]
          [("epX", [{ oid := 1, senderAddress := "0xc00", signature := "sA" }]),
           ("epY", [{ oid := 2, senderAddress := "0xc00", signature := "sB" }])]
          (fun e =>
            if e = "epX" then
              { isError := false
                body := { signatures := ["sigX"], expirationTimeSeconds := JSVal.scalar 100 }
                coordinatorOperator := "epX" }
            else
              { isError := false
                body := { signatures := ["sigY"], expirationTimeSeconds := JSVal.scalar 200 }
                coordinatorOperator := "epY" }) =
          Except.ok s ∧
        s.coordinatorApprovalSignatures =
          ((requestedEndpoints
            [("epX", [{ oid := 1, senderAddress := "0xc00", signature := "sA" }]),
             ("epY", [{ oid := 2, senderAddress := "0xc00", signature := "sB" }])]).map
            (fun e =>
              ((fun e =>
                if e = "epX" then
                  ({ isError := false
                     body := { signatures := ["sigX"],
                               expirationTimeSeconds := JSVal.scalar 100 }
                     coordinatorOperator := "epX" } : CoordinatorServerResponse)
                else
                  { isError := false
                    body := { signatures := ["sigY"],
                              expirationTimeSeconds := JSVal.scalar 200 }
                    coordinatorOperator := "epY" }) e).body.signatures)).flatten ∧
        s.coordinatorApprovalSignatures.length =
          ([{ oid := 1, senderAddress := "0xc00", signature := "sA" },
            { oid := 2, senderAddress := "0xc00", signature := "sB" },
            { oid := 3, senderAddress := "0x000", signature := "sC" }].filter
            (requiresCoordinatorApproval "0xc00")).length :=
  allApproved_signature_concatenation "0xc00"
    [{ oid := 1, senderAddress := "0xc00", signature := "sA" },
     { oid := 2, senderAddress := "0xc00", signature := "sB" },
     { oid := 3, senderAddress := "0x000", signature := "sC" }]
    [("epX", [{ oid := 1, senderAddress := "0xc00", signature := "sA" }]),
     ("epY", [{ oid := 2, senderAddress := "0xc00", signature := "sB" }])]
    (fun e =>
      if e = "epX" then
        { isError := false
          body := { signatures := ["sigX"], expirationTimeSeconds := JSVal.scalar 100 }
          coordinatorOperator := "epX" }
      else
        { isError := false
          body := { signatures := ["sigY"], expirationTimeSeconds := JSVal.scalar 200 }
          coordinatorOperator := "epY" })
    { keysNodup := by decide
      groupsNonempty := by decide
      unionCounts := by intro o; rfl }
    (by
      intro e he
      simp only [requestedEndpoints, List.map_cons, List.map_nil, List.mem_cons,
        List.not_mem_nil, or_false] at he
      rcases he with h | h <;> subst h <;> rfl)
    (by
      intro p hp
      simp only [List.mem_cons, List.not_mem_nil, or_false] at hp
      rcases hp with h | h <;> subst h <;> rfl)

/-- C2.  On every failing aggregation, the approved-orders list of the error
is exactly the concatenation of the order groups of the endpoints whose
response was not an error, followed by all orders that required no authority
(sender address not the coordinator address); and the refusal list has
exactly one entry per refusing endpoint — in iteration order — each
attributed to its endpoint (the response's `coordinatorOperator`) and paired
with that endpoint's order group. -/
theorem anyRefused_approved_and_attribution (coordinatorAddress : String)
    (signedOrders : List SignedOrder) (m : EndpointMap)
    (response : String → CoordinatorServerResponse)
    (hOp : ∀ e ∈ requestedEndpoints m, (response e).coordinatorOperator = e)
    (err : CoordinatorServerError)
    (herr : getCoordinatorApprovals coordinatorAddress signedOrders m response =
      Except.error err) :
    err.approvedOrders =
        (((requestedEndpoints m).filter (fun e => !(response e).isError)).map
          (lookupOrders m)).flatten ++
          signedOrders.filter
            (fun o => !requiresCoordinatorApproval coordinatorAddress o) ∧
      err.errors.map (fun x => (x.response.coordinatorOperator, x.orders)) =
        ((requestedEndpoints m).filter (fun e => (response e).isError)).map
          (fun e => (e, lookupOrders m e)) ∧
      err.errors.length =
        ((requestedEndpoints m).filter (fun e => (response e).isError)).length := by
  have hne := error_response_of_getCoordinatorApprovals_error coordinatorAddress
    signedOrders m response err herr
  rw [getCoordinatorApprovals_error_eq coordinatorAddress signedOrders m response hne]
    at herr
  injection herr with h
  subst h
  refine ⟨?_, ?_, ?_⟩
  · have hnest :
        (((requestedEndpoints m).map response).filter (fun r => !r.isError)).map
          (fun resp => lookupOrders m resp.coordinatorOperator) =
        ((requestedEndpoints m).filter (fun e => !(response e).isError)).map
          (lookupOrders m) := by
      rw [List.filter_map, List.map_map]
      refine List.map_congr_left ?_
      intro e he
      have he2 : e ∈ requestedEndpoints m := (List.mem_filter.mp he).1
      show lookupOrders m (response e).coordinatorOperator = lookupOrders m e
      rw [hOp e he2]
    simpa using congrArg
      (fun l => l.flatten ++ signedOrders.filter
        (fun o => !requiresCoordinatorApproval coordinatorAddress o)) hnest
  · show ((((requestedEndpoints m).map response).filter (fun r => r.isError)).map
        (fun resp =>
          ({ response := resp
             orders := lookupOrders m resp.coordinatorOperator } : ErrorWithOrders))).map
        (fun x => (x.response.coordinatorOperator, x.orders)) = _
    rw [List.filter_map, List.map_map, List.map_map]
    refine List.map_congr_left ?_
    intro e he
    have he2 : e ∈ requestedEndpoints m := (List.mem_filter.mp he).1
    show ((response e).coordinatorOperator, lookupOrders m (response e).coordinatorOperator) =
      (e, lookupOrders m e)
    rw [hOp e he2]
  · show ((((requestedEndpoints m).map response).filter (fun r => r.isError)).map
        (fun resp =>
          ({ response := resp
             orders := lookupOrders m resp.coordinatorOperator } : ErrorWithOrders))).length = _
    rw [List.filter_map, List.length_map, List.length_map]
    rfl

/-- C2, witness: one approving endpoint `epX` and one refusing endpoint
`epY`; the error's approved orders are `epX`'s group followed by the
no-authority order, and the refusal list is the single entry attributed to
`epY` with `epY`'s group. -/
theorem anyRefused_approved_and_attribution_witness :
    ({ message := CoordinatorServerErrorMsg.FillFailed
       approvedOrders :=
         [{ oid := 1, senderAddress := "0xc00", signature := "sA" },
          { oid := 3, senderAddress := "0x000", signature := "sC" }]
       cancellations := []
       errors :=
         [{ response :=
              { isError := true
                body := { signatures := [], expirationTimeSeconds := JSVal.scalar 0 }
                coordinatorOperator := "epY" }
            orders := [{ oid := 2, senderAddress := "0xc00", signature := "sB" }] }]
       : CoordinatorServerError }).approvedOrders =
        (((requestedEndpoints
            [("epX", [{ oid := 1, senderAddress := "0xc00", signature := "sA" }]),
             ("epY", [{ oid := 2, senderAddress := "0xc00", signature := "sB" }])]).filter
            (fun e =>
              !((fun e =>
                if e = "epX" then
                  ({ isError := false
                     body := { signatures := ["sigX"],
                               expirationTimeSeconds := JSVal.scalar 100 }
                     coordinatorOperator := "epX" } : CoordinatorServerResponse)
                else
                  { isError := true
                    body := { signatures := [], expirationTimeSeconds := JSVal.scalar 0 }
                    coordinatorOperator := "epY" }) e).isError)).map
          (lookupOrders
            [("epX", [{ oid := 1, senderAddress := "0xc00", signature := "sA" }]),
             ("epY", [{ oid := 2, senderAddress := "0xc00", signature := "sB" }])])).flatten ++
          [{ oid := 1, senderAddress := "0xc00", signature := "sA" },
           { oid := 2, senderAddress := "0xc00", signature := "sB" },
           { oid := 3, senderAddress := "0x000", signature := "sC" }].filter
            (fun o => !requiresCoordinatorApproval "0xc00" o) ∧
      ({ message := CoordinatorServerErrorMsg.FillFailed
         approvedOrders :=
           [{ oid := 1, senderAddress := "0xc00", signature := "sA" },
            { oid := 3, senderAddress := "0x000", signature := "sC" }]
         cancellations := []
         errors :=
           [{ response :=
                { isError := true
                  body := { signatures := [], expirationTimeSeconds := JSVal.scalar 0 }
                  coordinatorOperator := "epY" }
              orders := [{ oid := 2, senderAddress := "0xc00", signature := "sB" }] }]
         : CoordinatorServerError }).errors.map
          (fun x => (x.response.coordinatorOperator, x.orders)) =
        ((requestedEndpoints
            [("epX", [{ oid := 1, senderAddress := "0xc00", signature := "sA" }]),
             ("epY", [{ oid := 2, senderAddress := "0xc00", signature := "sB" }])]).filter
            (fun e =>
              ((fun e =>
                if e = "epX" then
                  ({ isError := false
                     body := { signatures := ["sigX"],
                               expirationTimeSeconds := JSVal.scalar 100 }
                     coordinatorOperator := "epX" } : CoordinatorServerResponse)
                else
                  { isError := true
                    body := { signatures := [], expirationTimeSeconds := JSVal.scalar 0 }
                    coordinatorOperator := "epY" }) e).isError)).map
          (fun e =>
            (e, lookupOrders
              [("epX", [{ oid := 1, senderAddress := "0xc00", signature := "sA" }]),
               ("epY", [{ oid := 2, senderAddress := "0xc00", signature := "sB" }])] e)) ∧
      ({ message := CoordinatorServerErrorMsg.FillFailed
         approvedOrders :=
           [{ oid := 1, senderAddress := "0xc00", signature := "sA" },
            { oid := 3, senderAddress := "0x000", signature := "sC" }]
         cancellations := []
         errors :=
           [{ response :=
                { isError := true
                  body := { signatures := [], expirationTimeSeconds := JSVal.scalar 0 }
                  coordinatorOperator := "epY" }
              orders := [{ oid := 2, senderAddress := "0xc00", signature := "sB" }] }]
         : CoordinatorServerError }).errors.length =
        ((requestedEndpoints
            [("epX", [{ oid := 1, senderAddress := "0xc00", signature := "sA" }]),
             ("epY", [{ oid := 2, senderAddress := "0xc00", signature := "sB" }])]).filter
            (fun e =>
              ((fun e =>
                if e = "epX" then
                  ({ isError := false
                     body := { signatures := ["sigX"],
                               expirationTimeSeconds := JSVal.scalar 100 }
                     coordinatorOperator := "epX" } : CoordinatorServerResponse)
                else
                  { isError := true
                    body := { signatures := [], expirationTimeSeconds := JSVal.scalar 0 }
                    coordinatorOperator := "epY" }) e).isError)).length :=
  anyRefused_approved_and_attribution "0xc00"
    [{ oid := 1, senderAddress := "0xc00", signature := "sA" },
     { oid := 2, senderAddress := "0xc00", signature := "sB" },
     { oid := 3, senderAddress := "0x000", signature := "sC" }]
    [("epX", [{ oid := 1, senderAddress := "0xc00", signature := "sA" }]),
     ("epY", [{ oid := 2, senderAddress := "0xc00", signature := "sB" }])]
    (fun e =>
      if e = "epX" then
        { isError := false
          body := { signatures := ["sigX"], expirationTimeSeconds := JSVal.scalar 100 }
          coordinatorOperator := "epX" }
      else
        { isError := true
          body := { signatures := [], expirationTimeSeconds := JSVal.scalar 0 }
          coordinatorOperator := "epY" })
    (by
      intro e he
      simp only [requestedEndpoints, List.map_cons, List.map_nil, List.mem_cons,
        List.not_mem_nil, or_false] at he
      rcases he with h | h <;> subst h <;> rfl)
    { message := CoordinatorServerErrorMsg.FillFailed
      approvedOrders :=
        [{ oid := 1, senderAddress := "0xc00", signature := "sA" },
         { oid := 3, senderAddress := "0x000", signature := "sC" }]
      cancellations := []
      errors :=
        [{ response :=
             { isError := true
               body := { signatures := [], expirationTimeSeconds := JSVal.scalar 0 }
               coordinatorOperator := "epY" }
           orders := [{ oid := 2, senderAddress := "0xc00", signature := "sB" }] }] }
    (by rfl)

/-- C1.  On every failing aggregation, with the endpoint map partitioning the
coordinator orders and responses attributable to their endpoints, occurrence
counts are preserved: for every order, its count in the error's
approved-orders list plus its count across the refusals' implicated-order
lists equals its count in the input batch; in particular, for a
duplicate-free batch every order of the batch appears exactly once across
the two — none dropped, none double-reported. -/
theorem anyRefused_order_partition (coordinatorAddress : String)
    (signedOrders : List SignedOrder) (m : EndpointMap)
    (response : String → CoordinatorServerResponse)
    (hmap : IsEndpointMap m
      (signedOrders.filter (requiresCoordinatorApproval coordinatorAddress)))
    (hOp : ∀ e ∈ requestedEndpoints m, (response e).coordinatorOperator = e)
    (err : CoordinatorServerError)
    (herr : getCoordinatorApprovals coordinatorAddress signedOrders m response =
      Except.error err) :
    (∀ o : SignedOrder,
        err.approvedOrders.count o +
          ((err.errors.map (fun x => x.orders)).flatten).count o =
          signedOrders.count o) ∧
      (signedOrders.Nodup → ∀ o ∈ signedOrders,
        err.approvedOrders.count o +
          ((err.errors.map (fun x => x.orders)).flatten).count o = 1) := by
  have hne := error_response_of_getCoordinatorApprovals_error coordinatorAddress
    signedOrders m response err herr
  rw [getCoordinatorApprovals_error_eq coordinatorAddress signedOrders m response hne]
    at herr
  injection herr with h
  subst h
  have hEorders :
      ((((requestedEndpoints m).map response).filter (fun r => r.isError)).map
        (fun resp =>
          ({ response := resp
             orders := lookupOrders m resp.coordinatorOperator } : ErrorWithOrders))).map
        (fun x => x.orders) =
      (((requestedEndpoints m).map response).filter (fun r => r.isError)).map
        (fun resp => lookupOrders m resp.coordinatorOperator) := by
    rw [List.map_map]
    rfl
  have hmain : ∀ o : SignedOrder,
      (((((requestedEndpoints m).map response).filter (fun r => !r.isError)).map
          (fun resp => lookupOrders m resp.coordinatorOperator)).flatten ++
        signedOrders.filter
          (fun o => !requiresCoordinatorApproval coordinatorAddress o)).count o +
        ((((((requestedEndpoints m).map response).filter (fun r => r.isError)).map
          (fun resp =>
            ({ response := resp
               orders := lookupOrders m resp.coordinatorOperator } : ErrorWithOrders))).map
          (fun x => x.orders)).flatten).count o =
        signedOrders.count o := by
    intro o
    rw [hEorders, List.count_append,
      groups_of_filtered_responses m response hOp (fun r => !r.isError),
      groups_of_filtered_responses m response hOp (fun r => r.isError)]
    have hg := count_groups_split m response o
    have hflat : (((requestedEndpoints m).map (lookupOrders m)).flatten).count o =
        (signedOrders.filter (requiresCoordinatorApproval coordinatorAddress)).count o := by
      simp only [requestedEndpoints]
      rw [map_lookupOrders_keys m hmap.keysNodup]
      exact hmap.unionCounts o
    have hfilters := count_filter_split signedOrders
      (requiresCoordinatorApproval coordinatorAddress) o
    omega
  exact ⟨hmain, fun hnd o ho => by
    have h1 := hmain o
    rw [List.count_eq_one_of_mem hnd ho] at h1
    exact h1⟩

/-- C1, witness: the three-order batch with approving endpoint `epX` and
refusing endpoint `epY` has every order exactly once across the approved
list and the refusals' order lists. -/
theorem anyRefused_order_partition_witness :
    (errXY.approvedOrders.count orderA +
        ((errXY.errors.map (fun x => x.orders)).flatten).count orderA = 1) ∧
      (errXY.approvedOrders.count orderB +
        ((errXY.errors.map (fun x => x.orders)).flatten).count orderB = 1) ∧
      (errXY.approvedOrders.count orderC +
        ((errXY.errors.map (fun x => x.orders)).flatten).count orderC = 1) := by
  have h := (anyRefused_order_partition "0xc00" [orderA, orderB, orderC] mapXY respXokYerr
    { keysNodup := by decide
      groupsNonempty := by decide
      unionCounts := by intro o; rfl }
    (by
      intro e he
      simp only [mapXY, requestedEndpoints, List.map_cons, List.map_nil, List.mem_cons,
        List.not_mem_nil, or_false] at he
      rcases he with hh | hh <;> subst hh <;> rfl)
    errXY (by rfl)).2 (by decide)
  exact ⟨h orderA (by decide), h orderB (by decide), h orderC (by decide)⟩

end Coordinator
